import Mathlib

/-!
# Verification of the CreateVmWizard step-state reconciliation engine

Shallow embedding of the VM-creation wizard state logic (`CreateVmWizard`):
the wizard state document, the derivation performed when leaving the basic
step (`handleBasicOnExit`), the partial-update merge (`handleBasicOnUpdate`),
the list mutation protocol (`handleListOnUpdate`), the submission stamping
(`handleCreateVm`), the full reset (`hideAndResetState`), and the read-side
progress projection computed by the finished step of `createSteps`.

JavaScript conventions used throughout the embedding:
* a field that may be `undefined` is an `Option`;
* a partial-update object is a structure of `Option` fields where `none`
  means "key absent" (destructuring an absent key yields `undefined`,
  i.e. `none`);
* immutable-map `get`/`has` become association-list lookups;
* `x || dflt` on a string-valued expression is `jsOrString` (both
  `undefined` and the empty string are falsy).

External collaborators that are not part of the excerpt are abstracted as
parameters: `createStorageDomainList` becomes `Env.storageDomainList`,
`generateUnique` becomes the token argument of the create-VM operation,
`buildMessageFromRecord` becomes a `render` function argument, and the
basic-step contents computed by `createClusterList` / `handleClusterIdChange`
inside `getInitialState` become the `Env.basicInit` / `Env.basicDefaults`
parameters.
-/

/-- `cpu.topology` record of the basic step. -/
structure Topology where
  sockets : Nat
  cores : Nat
  threads : Nat
deriving DecidableEq

/-- `steps.basic` of the wizard state (`DEFAULT_STATE.steps.basic` plus the
fields merged in later: `provisionSource`, `clusterId`, `templateId`,
`dataCenterId`, which start out absent). -/
structure BasicStep where
  name : String
  operatingSystemId : String
  memory : Nat
  cpus : Nat
  startOnCreation : Bool
  initEnabled : Bool
  optimizedFor : String
  topology : Topology
  tpmEnabled : Option Bool
  provisionSource : Option String
  clusterId : Option String
  templateId : Option String
  dataCenterId : Option String
deriving DecidableEq

/-- A `partialUpdate` object passed to `handleBasicOnUpdate`: every key is
optional; `none` means the key is absent from the object. -/
structure BasicUpdate where
  name : Option String := none
  operatingSystemId : Option String := none
  memory : Option Nat := none
  cpus : Option Nat := none
  startOnCreation : Option Bool := none
  initEnabled : Option Bool := none
  optimizedFor : Option String := none
  topology : Option Topology := none
  tpmEnabled : Option Bool := none
  provisionSource : Option String := none
  clusterId : Option String := none
  templateId : Option String := none
  dataCenterId : Option String := none
deriving DecidableEq

/-- A NIC draft of `steps.network.nics`, as built in `handleBasicOnExit`. -/
structure Nic where
  id : String
  name : String
  vnicProfileId : String
  deviceType : String
  isFromTemplate : Bool
deriving DecidableEq

/-- An `update` payload for the network list: carries the id used by `find`
plus the merged entries (absent keys are `none`). The `id` key is always
present on the payload in the source (`update.id`). -/
structure NicPatch where
  id : String
  name : Option String := none
  vnicProfileId : Option String := none
  deviceType : Option String := none
  isFromTemplate : Option Bool := none
deriving DecidableEq

/-- The plain fields of a disk draft, as built by the first `map` over the
template disks in `handleBasicOnExit` (before the `underConstruction`
shadow is attached by the second `map`). -/
structure DiskFields where
  id : String
  name : String
  diskId : String
  storageDomainId : String
  canUserUseStorageDomain : Bool
  bootable : Bool
  diskType : String
  size : Nat
  isFromTemplate : Bool
deriving DecidableEq

/-- A disk draft of `steps.storage.disks`: the plain fields plus the
optional `underConstruction` shadow copy. -/
structure Disk where
  fields : DiskFields
  underConstruction : Option DiskFields := none
deriving DecidableEq

/-- An `update` payload for the storage list (absent keys are `none`). -/
structure DiskPatch where
  id : String
  name : Option String := none
  diskId : Option String := none
  storageDomainId : Option String := none
  canUserUseStorageDomain : Option Bool := none
  bootable : Option Bool := none
  diskType : Option String := none
  size : Option Nat := none
  isFromTemplate : Option Bool := none
  underConstruction : Option (Option DiskFields) := none
deriving DecidableEq

/-- `steps.network`. -/
structure NetworkStep where
  nics : List Nic
  updated : Nat
deriving DecidableEq

/-- `steps.storage`. -/
structure StorageStep where
  disks : List Disk
  updated : Nat
deriving DecidableEq

/-- `steps` of the wizard state. -/
structure Steps where
  basic : BasicStep
  network : NetworkStep
  storage : StorageStep
deriving DecidableEq

/-- One entry of `stepNavigation`. -/
structure StepNavEntry where
  valid : Bool
  preventEnter : Bool
deriving DecidableEq

/-- `stepNavigation`. -/
structure StepNavigation where
  basic : StepNavEntry
  network : StepNavEntry
  storage : StepNavEntry
  review : StepNavEntry
deriving DecidableEq

/-- The wizard state document (`DEFAULT_STATE` shape). `basicDefaultValues`
is absent (`none`) until `getInitialState` fills it in. -/
structure WizardState where
  activeStepIndex : Nat
  wizardKey : Nat
  steps : Steps
  wizardUpdated : Bool
  showCloseWizardDialog : Bool
  stepNavigation : StepNavigation
  correlationId : Option String
  basicDefaultValues : Option BasicStep
deriving DecidableEq

/-- A NIC of a template, as read by `handleBasicOnExit`:
`nic.getIn(['vnicProfile', 'id'])` may be absent. -/
structure TemplateNic where
  id : String
  name : String
  vnicProfileId : Option String
  interface : String
deriving DecidableEq

/-- A disk of a template, as read by `handleBasicOnExit`. -/
structure TemplateDisk where
  attachmentId : String
  id : String
  name : String
  storageDomainId : String
  bootable : Bool
  sparse : Bool
  provisionedSize : Nat
deriving DecidableEq

/-- A VM template: `type` is the template class checked against
`'desktop'` by the disk-type rule. -/
structure Template where
  id : String
  type : String
  nics : List TemplateNic
  disks : List TemplateDisk
deriving DecidableEq

/-- The props/environment of the wizard component that the handlers read:
* `templates` — the keyed template collection (`this.props.templates`);
* `storageDomainList` — abstraction of `createStorageDomainList` (a helper
  outside this excerpt), as a function from the basic step's `dataCenterId`
  to the ids of the storage domains available in that data center;
* `basicInit`, `basicDefaults` — abstraction of the basic-step contents
  computed inside `getInitialState` by the helpers `createClusterList` /
  `handleClusterIdChange` / blank-template defaulting, none of which are
  part of this excerpt. -/
structure Env where
  templates : List (String × Template)
  storageDomainList : Option String → List String
  basicInit : BasicStep
  basicDefaults : BasicStep

/-- A record of `userMessages.records`:
`failedActionCorrelationId` models `record.getIn(['failedAction', 'meta',
'correlationId'])` (absent when the record has no failed action), and
`body` abstracts the rest of the record consumed by the renderer. -/
structure UserMessageRecord where
  failedActionCorrelationId : Option String
  body : String
deriving DecidableEq

/-- The `progress` object handed to the finished step: `result` is
`undefined` (`none`), `'success'` or `'error'`; `messages` is `null`
(`none`) or a list of rendered messages. -/
structure ProgressView where
  inProgress : Bool
  result : Option String
  messages : Option (List String)
deriving DecidableEq

/-- `EMPTY_VNIC_PROFILE_ID` from `_/constants` (value opaque to this
excerpt; only its identity matters). -/
def EMPTY_VNIC_PROFILE_ID : String := "EMPTY_VNIC_PROFILE_ID"

/-- JavaScript `v || dflt` for a possibly-absent string: `undefined` and
the empty string are falsy. -/
def jsOrString (v : Option String) (dflt : String) : String :=
  match v with
  | none => dflt
  | some s => if s.isEmpty then dflt else s

/-- `DEFAULT_STATE.steps.basic`. -/
def DEFAULT_BASIC : BasicStep :=
  { name := ""
    operatingSystemId := "0"
    memory := 1024
    cpus := 1
    startOnCreation := false
    initEnabled := false
    optimizedFor := "desktop"
    topology := { sockets := 1, cores := 1, threads := 1 }
    tpmEnabled := none
    provisionSource := none
    clusterId := none
    templateId := none
    dataCenterId := none }

/-- `DEFAULT_STATE`. -/
def DEFAULT_STATE : WizardState :=
  { activeStepIndex := 0
    wizardKey := 1
    steps :=
      { basic := DEFAULT_BASIC
        network := { nics := [], updated := 0 }
        storage := { disks := [], updated := 0 } }
    wizardUpdated := false
    showCloseWizardDialog := false
    stepNavigation :=
      { basic := { valid := false, preventEnter := false }
        network := { valid := true, preventEnter := false }
        storage := { valid := false, preventEnter := false }
        review := { valid := true, preventEnter := false } }
    correlationId := none
    basicDefaultValues := none }

/-- `getInitialState`: the `produce` block overrides `basicDefaultValues`
and `steps.basic` of `DEFAULT_STATE` and leaves every other field alone.
The contents of the two overridden fields are computed by helpers outside
this excerpt (`createClusterList`, `handleClusterIdChange`, blank-template
defaulting) and are therefore taken as the parameters `basicInit` /
`basicDefaults`. -/
def getInitialState (basicInit basicDefaults : BasicStep) : WizardState :=
  { DEFAULT_STATE with
    steps := { DEFAULT_STATE.steps with basic := basicInit }
    basicDefaultValues := some basicDefaults }

/-- `this.props.templates.get(templateId)`: map lookup, `undefined` key
gives `undefined`. -/
def lookupTemplate (ts : List (String × Template)) : Option String → Option Template
  | none => none
  | some i => (ts.find? (fun p => p.1 == i)).map (fun p => p.2)

/-- One NIC draft derived from a template NIC (`handleBasicOnExit`,
network branch). -/
def deriveNic (nic : TemplateNic) : Nic :=
  { id := nic.id
    name := nic.name
    vnicProfileId := jsOrString nic.vnicProfileId EMPTY_VNIC_PROFILE_ID
    deviceType := nic.interface
    isFromTemplate := true }

/-- The derived NIC list: empty without a template, else one draft per
template NIC. -/
def deriveNics (template : Option Template) : List Nic :=
  match template with
  | none => []
  | some t => t.nics.map deriveNic

/-- The first `map` over the template disks in `handleBasicOnExit`:
build the plain disk draft, including the disk-type defaulting rule
`template.get('type') === 'desktop' || optimizedFor === 'desktop'
? 'thin' : disk.get('sparse') ? 'thin' : 'pre'` and the
`canUserUseStorageDomain` membership test against the data-center
storage-domain list. -/
def deriveDiskFields (templateType optimizedFor : String) (sdIds : List String)
    (disk : TemplateDisk) : DiskFields :=
  { id := disk.attachmentId
    name := disk.name
    diskId := disk.id
    storageDomainId := disk.storageDomainId
    canUserUseStorageDomain := sdIds.any (fun sdId => sdId == disk.storageDomainId)
    bootable := disk.bootable
    diskType :=
      if templateType = "desktop" ∨ optimizedFor = "desktop" then "thin"
      else if disk.sparse then "thin" else "pre"
    size := disk.provisionedSize
    isFromTemplate := true }

/-- The second `map` over the derived disks: a disk whose storage domain
the user cannot use is moved to edit mode by attaching an
`underConstruction` shadow copy with `storageDomainId` reset to `'_'`. -/
def attachUnderConstruction (f : DiskFields) : Disk :=
  if f.canUserUseStorageDomain then { fields := f, underConstruction := none }
  else { fields := f, underConstruction := some { f with storageDomainId := "_" } }

/-- The derived disk list: empty without a template, else the two maps
over the template disks. -/
def deriveDisks (template : Option Template) (optimizedFor : String)
    (sdIds : List String) : List Disk :=
  match template with
  | none => []
  | some t =>
    (t.disks.map (deriveDiskFields t.type optimizedFor sdIds)).map attachUnderConstruction

/-- `handleBasicOnExit`: when leaving the basic step, re-derive the NIC
list if `network.updated === 0` and the disk list if
`storage.updated === 0`; a re-derived storage step also recomputes
`stepNavigation.storage.valid` as "no disk has an `underConstruction`
shadow" (`!disks.find(({underConstruction}) => underConstruction)`). -/
def handleBasicOnExit (env : Env) (s : WizardState) : WizardState :=
  if s.steps.network.updated = 0 ∨ s.steps.storage.updated = 0 then
    let template := lookupTemplate env.templates s.steps.basic.templateId
    let s₁ :=
      if s.steps.network.updated = 0 then
        { s with steps := { s.steps with
            network :=
              { updated := s.steps.network.updated + 1
                nics := deriveNics template } } }
      else s
    if s.steps.storage.updated = 0 then
      let disks := deriveDisks template s.steps.basic.optimizedFor
        (env.storageDomainList s.steps.basic.dataCenterId)
      { s₁ with
        steps := { s₁.steps with
          storage := { updated := s.steps.storage.updated + 1, disks := disks } }
        stepNavigation := { s₁.stepNavigation with
          storage := { s₁.stepNavigation.storage with
            valid := disks.all (fun d => d.underConstruction.isNone) } } }
    else s₁
  else s

/-- The field-by-field merge of a `partialUpdate` into `steps.basic`
(the `for (const [key, val] of Object.entries(partialUpdate))` loop of
`handleBasicOnUpdate`): a present key overwrites the field, an absent key
leaves it alone. -/
def mergeBasic (b : BasicStep) (u : BasicUpdate) : BasicStep :=
  { name := u.name.getD b.name
    operatingSystemId := u.operatingSystemId.getD b.operatingSystemId
    memory := u.memory.getD b.memory
    cpus := u.cpus.getD b.cpus
    startOnCreation := u.startOnCreation.getD b.startOnCreation
    initEnabled := u.initEnabled.getD b.initEnabled
    optimizedFor := u.optimizedFor.getD b.optimizedFor
    topology := u.topology.getD b.topology
    tpmEnabled := match u.tpmEnabled with | some v => some v | none => b.tpmEnabled
    provisionSource := match u.provisionSource with | some v => some v | none => b.provisionSource
    clusterId := match u.clusterId with | some v => some v | none => b.clusterId
    templateId := match u.templateId with | some v => some v | none => b.templateId
    dataCenterId := match u.dataCenterId with | some v => some v | none => b.dataCenterId }

/-- `handleBasicOnUpdate`: merge the partial update into `steps.basic`,
mark the wizard updated, and then compare the *post-merge* draft values of
`provisionSource` / `templateId` against the values destructured from the
`partialUpdate` object itself (`undefined`, i.e. `none`, when the key is
absent); when either comparison differs, reset `network.updated` and
`storage.updated` to 0. -/
def handleBasicOnUpdate (u : BasicUpdate) (s : WizardState) : WizardState :=
  let basic := mergeBasic s.steps.basic u
  let s₁ := { s with
    steps := { s.steps with basic := basic }
    wizardUpdated := true }
  if basic.provisionSource ≠ u.provisionSource ∨ basic.templateId ≠ u.templateId then
    { s₁ with steps := { s₁.steps with
        network := { s₁.steps.network with updated := 0 }
        storage := { s₁.steps.storage with updated := 0 } } }
  else s₁

/-- `step[listName].filter(item => item.id !== remove)`. -/
def removeById {α : Type} (getId : α → String) (rid : String) (l : List α) : List α :=
  l.filter (fun x => getId x != rid)

/-- `step[listName].find(item => item.id === update.id)` followed by the
in-place merge: replace the first item whose id matches, leave the list
unchanged when no item matches. -/
def updateFirstById {α : Type} (getId : α → String) (uid : String) (f : α → α) :
    List α → List α
  | [] => []
  | x :: xs => if getId x = uid then f x :: xs else x :: updateFirstById getId uid f xs

/-- JavaScript truthiness of the possibly-absent string-valued `remove`
id: both `undefined` and the empty string are falsy in the `!remove` and
`if (remove)` checks. (`update` and `create` are objects, truthy whenever
present.) -/
def jsTruthyId : Option String → Bool
  | none => false
  | some s => !s.isEmpty

/-- Apply the `remove`, `update`, `create` operations of one
`handleListOnUpdate` call to a list, in the source's order. The removal
is guarded by `if (remove)`: a falsy id (absent key or empty string)
skips the filter. -/
def applyListOps {α π : Type} (getId : α → String) (patchId : π → String)
    (mergePatch : α → π → α) (remove : Option String) (update : Option π)
    (create : Option α) (l : List α) : List α :=
  let l₁ := match remove with
    | some rid => if rid.isEmpty then l else removeById getId rid l
    | none => l
  let l₂ := match update with
    | some p => updateFirstById getId (patchId p) (fun x => mergePatch x p) l₁
    | none => l₁
  match create with
  | some x => l₂ ++ [x]
  | none => l₂

/-- Merge an `update` payload into a NIC (every present key of the payload,
including `id`, overwrites the item's field). -/
def mergeNicPatch (n : Nic) (p : NicPatch) : Nic :=
  { id := p.id
    name := p.name.getD n.name
    vnicProfileId := p.vnicProfileId.getD n.vnicProfileId
    deviceType := p.deviceType.getD n.deviceType
    isFromTemplate := p.isFromTemplate.getD n.isFromTemplate }

/-- Merge an `update` payload into a disk draft. -/
def mergeDiskPatch (d : Disk) (p : DiskPatch) : Disk :=
  { fields :=
      { id := p.id
        name := p.name.getD d.fields.name
        diskId := p.diskId.getD d.fields.diskId
        storageDomainId := p.storageDomainId.getD d.fields.storageDomainId
        canUserUseStorageDomain := p.canUserUseStorageDomain.getD d.fields.canUserUseStorageDomain
        bootable := p.bootable.getD d.fields.bootable
        diskType := p.diskType.getD d.fields.diskType
        size := p.size.getD d.fields.size
        isFromTemplate := p.isFromTemplate.getD d.fields.isFromTemplate }
    underConstruction := p.underConstruction.getD d.underConstruction }

/-- The `(stepName, listName, payload)` argument triple of a
`handleListOnUpdate` call; the wizard only ever calls it with
`('network', 'nics', …)` or `('storage', 'disks', …)`. -/
inductive ListPayload where
  | network (remove : Option String) (update : Option NicPatch) (create : Option Nic)
  | storage (remove : Option String) (update : Option DiskPatch) (create : Option Disk)
deriving DecidableEq

/-- The `!remove && !update && !create` early-return guard, with
JavaScript truthiness: a `remove` carrying the empty string is falsy and
counts as absent, while `update` / `create` are objects, truthy exactly
when present. -/
def ListPayload.isEmpty : ListPayload → Bool
  | .network r u c => !jsTruthyId r && u.isNone && c.isNone
  | .storage r u c => !jsTruthyId r && u.isNone && c.isNone

/-- `handleListOnUpdate`: return unchanged when no operation is present,
otherwise apply remove/update/create to the step's list, increment the
step's `updated` counter and set `wizardUpdated`. -/
def handleListOnUpdate (p : ListPayload) (s : WizardState) : WizardState :=
  if p.isEmpty then s
  else
    match p with
    | .network r u c =>
      { s with
        wizardUpdated := true
        steps := { s.steps with
          network :=
            { nics := applyListOps Nic.id NicPatch.id mergeNicPatch r u c s.steps.network.nics
              updated := s.steps.network.updated + 1 } } }
    | .storage r u c =>
      { s with
        wizardUpdated := true
        steps := { s.steps with
          storage :=
            { disks := applyListOps (fun d => d.fields.id) DiskPatch.id mergeDiskPatch r u c
                s.steps.storage.disks
              updated := s.steps.storage.updated + 1 } } }

/-- `handleCreateVm`: stamp the freshly generated correlation id on the
state (the external `onCreate` dispatch carries no state effect; the token
produced by `generateUnique` is the argument). -/
def handleCreateVm (token : String) (s : WizardState) : WizardState :=
  { s with correlationId := some token }

/-- `hideAndResetState`: replace the state with a fresh
`getInitialState(props)` except that `wizardKey` is incremented. -/
def hideAndResetState (env : Env) (s : WizardState) : WizardState :=
  { getInitialState env.basicInit env.basicDefaults with wizardKey := s.wizardKey + 1 }

/-- `showCloseWizardDialog`: pop the confirmation dialog only when the
wizard has unsaved edits and no submission was made
(`wizardUpdated && !correlationId`); otherwise reset immediately. -/
def showCloseWizardDialogOp (env : Env) (s : WizardState) : WizardState :=
  if s.wizardUpdated ∧ s.correlationId = none then
    { s with showCloseWizardDialog := true }
  else hideAndResetState env s

/-- `hideCloseWizardDialog`. -/
def hideCloseWizardDialogOp (s : WizardState) : WizardState :=
  { s with showCloseWizardDialog := false }

/-- The step whose `stepNavigation` validity flag an `onUpdate` callback
sets (`basic`, `network` or `storage`; `review.valid` is never set). -/
inductive NavStep where
  | basic
  | network
  | storage
deriving DecidableEq

/-- The `draft.stepNavigation.<step>.valid = valid` part of the wizard's
`onUpdate` callbacks. -/
def setStepValid (st : NavStep) (v : Bool) (s : WizardState) : WizardState :=
  match st with
  | .basic => { s with stepNavigation := { s.stepNavigation with
      basic := { s.stepNavigation.basic with valid := v } } }
  | .network => { s with stepNavigation := { s.stepNavigation with
      network := { s.stepNavigation.network with valid := v } } }
  | .storage => { s with stepNavigation := { s.stepNavigation with
      storage := { s.stepNavigation.storage with valid := v } } }

/-- `actionResults.get(token)` on the correlation-result map, with the
stored values abstracted to their truthiness. -/
def lookupResult (results : List (String × Bool)) (k : String) : Option Bool :=
  (results.find? (fun p => p.1 == k)).map (fun p => p.2)

/-- The progress projection computed by the finished step of
`createSteps`: `inProgress` is `correlationId !== null && !has`,
`result` is `undefined` when the id is null or still in progress and
otherwise `'success'`/`'error'` by the truthiness of the stored result,
and `messages` is `null` for a null id and otherwise the rendered records
whose `failedAction.meta.correlationId` equals the id. -/
def resolveProgress (correlationId : Option String)
    (actionResults : List (String × Bool)) (records : List UserMessageRecord)
    (render : UserMessageRecord → String) : ProgressView :=
  let inProgress :=
    match correlationId with
    | none => false
    | some cid => (lookupResult actionResults cid).isNone
  { inProgress := inProgress
    result :=
      match correlationId with
      | none => none
      | some cid =>
        if inProgress then none
        else if (lookupResult actionResults cid).getD false then some "success"
        else some "error"
    messages :=
      match correlationId with
      | none => none
      | some cid =>
        some ((records.filter (fun r => r.failedActionCorrelationId == some cid)).map render) }

/-- The mutation operations of one wizard session: the mutation protocol
handlers, the submission stamping (with the `generateUnique` token as
argument), the full reset, the validity setters of the `onUpdate`
callbacks and the close-dialog handlers. -/
inductive Op where
  | updateBasic (u : BasicUpdate)
  | listUpdate (p : ListPayload)
  | basicExit
  | createVm (token : String)
  | resetState
  | setValid (st : NavStep) (v : Bool)
  | showCloseDialog
  | hideCloseDialog

/-- Apply one session operation to the state. -/
def applyOp (env : Env) (o : Op) (s : WizardState) : WizardState :=
  match o with
  | .updateBasic u => handleBasicOnUpdate u s
  | .listUpdate p => handleListOnUpdate p s
  | .basicExit => handleBasicOnExit env s
  | .createVm token => handleCreateVm token s
  | .resetState => hideAndResetState env s
  | .setValid st v => setStepValid st v s
  | .showCloseDialog => showCloseWizardDialogOp env s
  | .hideCloseDialog => hideCloseWizardDialogOp s

/-- States reachable from the freshly opened wizard by session
operations. -/
inductive Reachable (env : Env) : WizardState → Prop
  | init : Reachable env (getInitialState env.basicInit env.basicDefaults)
  | step (o : Op) (s : WizardState) : Reachable env s → Reachable env (applyOp env o s)

/-- The disk-type defaulting rule in the spec's words: `thin` if the
template's class is `desktop` or the wizard's current `optimizedFor` is
`desktop`, otherwise `thin` for a sparse source disk and `pre` for a
non-sparse one. Stated separately from the source-derived
`deriveDiskFields` so the two can be compared. -/
def specDiskType (templateClass optimizedFor : String) (sparse : Bool) : String :=
  if templateClass = "desktop" ∨ optimizedFor = "desktop" then "thin"
  else if sparse then "thin" else "pre"

/-- A sample server-class template: one NIC, a sparse disk on an
unavailable storage domain and a non-sparse disk on an available one. -/
def tmplA : Template :=
  { id := "tA"
    type := "server"
    nics := [{ id := "n0", name := "nic0", vnicProfileId := some "p0", interface := "virtio" }]
    disks :=
      [ { attachmentId := "a1", id := "d1", name := "disk1", storageDomainId := "sd1"
          bootable := true, sparse := true, provisionedSize := 1024 }
      , { attachmentId := "a2", id := "d2", name := "disk2", storageDomainId := "sd2"
          bootable := false, sparse := false, provisionedSize := 2048 } ] }

/-- A sample environment with no templates and no storage domains. -/
def envA : Env :=
  { templates := []
    storageDomainList := fun _ => []
    basicInit := DEFAULT_BASIC
    basicDefaults := DEFAULT_BASIC }

/-- A sample environment holding `tmplA`, with only `sd2` available. -/
def envT : Env :=
  { templates := [("tA", tmplA)]
    storageDomainList := fun _ => ["sd2"]
    basicInit := DEFAULT_BASIC
    basicDefaults := DEFAULT_BASIC }

/-- A sample state about to leave the basic step with `tmplA` selected and
`optimizedFor = 'server'`, both derivation counters still 0. -/
def stateT : WizardState :=
  { DEFAULT_STATE with steps := { DEFAULT_STATE.steps with
      basic := { DEFAULT_BASIC with
        templateId := some "tA"
        optimizedFor := "server"
        provisionSource := some "template" } } }

/-- A sample state whose lists were already derived/edited
(`network.updated = 5`, `storage.updated = 3`), with
`provisionSource = 'template'` and no template selected. -/
def stateA : WizardState :=
  { DEFAULT_STATE with steps := { DEFAULT_STATE.steps with
      basic := { DEFAULT_BASIC with provisionSource := some "template" }
      network := { nics := [], updated := 5 }
      storage := { disks := [], updated := 3 } } }

/-- A sample state stamped with correlation id `t1`. -/
def stateS : WizardState :=
  { DEFAULT_STATE with correlationId := some "t1" }

/-- A sample NIC not occurring in any sample list. -/
def nicX : Nic :=
  { id := "nX", name := "nicX", vnicProfileId := "pX", deviceType := "virtio"
    isFromTemplate := false }

/-- A sample NIC whose id is the empty string — a falsy id in the
source's truthiness checks. -/
def nicE : Nic :=
  { id := "", name := "nicE", vnicProfileId := "pE", deviceType := "virtio"
    isFromTemplate := false }

/-- A sample disk draft not occurring in any sample list. -/
def diskY : Disk :=
  { fields :=
      { id := "aY", name := "diskY", diskId := "dY", storageDomainId := "sdY"
        canUserUseStorageDomain := true, bootable := false, diskType := "thin"
        size := 4096, isFromTemplate := false }
    underConstruction := none }

/-- A partial basic update touching only `name`. -/
def updName : BasicUpdate := { name := some "vm1" }

/-- A partial basic update changing only `provisionSource`. -/
def updProv : BasicUpdate := { provisionSource := some "iso" }

/-- Sample user-message records: one failure correlated to `tok`, one
uncorrelated record. -/
def recordsA : List UserMessageRecord :=
  [ { failedActionCorrelationId := some "tok", body := "boom" }
  , { failedActionCorrelationId := none, body := "other" } ]

/-- `removeById` leaves a list alone when no element carries the removed
id. -/
theorem removeById_eq_self {α : Type} (getId : α → String) (rid : String)
    (l : List α) (h : ∀ x ∈ l, getId x ≠ rid) : removeById getId rid l = l := by
  unfold removeById
  refine List.filter_eq_self.mpr ?_
  intro a ha
  simpa using h a ha

/-- `updateFirstById` leaves a list alone when no element carries the
updated id. -/
theorem updateFirstById_eq_self {α : Type} (getId : α → String) (uid : String)
    (f : α → α) (l : List α) (h : ∀ x ∈ l, getId x ≠ uid) :
    updateFirstById getId uid f l = l := by
  induction l with
  | nil => rfl
  | cons x xs ih =>
    unfold updateFirstById
    rw [if_neg (h x (List.mem_cons_self x xs))]
    rw [ih (fun y hy => h y (List.mem_cons_of_mem x hy))]

/-- Removing a freshly appended element restores the original list when
its id occurred nowhere in it. -/
theorem removeById_append_self {α : Type} (getId : α → String) (x : α)
    (l : List α) (h : ∀ y ∈ l, getId y ≠ getId x) :
    removeById getId (getId x) (l ++ [x]) = l := by
  unfold removeById
  rw [List.filter_append]
  have h₁ : l.filter (fun y => getId y != getId x) = l := by
    refine List.filter_eq_self.mpr ?_
    intro a ha
    simpa using h a ha
  have h₂ : [x].filter (fun y => getId y != getId x) = [] := by
    simp
  rw [h₁, h₂, List.append_nil]

/-- After `handleBasicOnExit` both derivation counters are non-zero. -/
theorem handleBasicOnExit_updated_ne (env : Env) (s : WizardState) :
    (handleBasicOnExit env s).steps.network.updated ≠ 0 ∧
      (handleBasicOnExit env s).steps.storage.updated ≠ 0 := by
  by_cases hn : s.steps.network.updated = 0 <;>
    by_cases hs : s.steps.storage.updated = 0 <;>
      simp [handleBasicOnExit, hn, hs]

/-- `handleBasicOnExit` on a state with both counters non-zero is the
identity. -/
theorem handleBasicOnExit_eq_self (env : Env) (s : WizardState)
    (hn : s.steps.network.updated ≠ 0) (hs : s.steps.storage.updated ≠ 0) :
    handleBasicOnExit env s = s := by
  unfold handleBasicOnExit
  rw [if_neg]
  simp [hn, hs]

/-- `handleBasicOnExit` never touches the correlation id. -/
theorem handleBasicOnExit_correlationId (env : Env) (s : WizardState) :
    (handleBasicOnExit env s).correlationId = s.correlationId := by
  by_cases hn : s.steps.network.updated = 0 <;>
    by_cases hs : s.steps.storage.updated = 0 <;>
      simp [handleBasicOnExit, hn, hs]

/-- When the storage counter is 0, `handleBasicOnExit` replaces the disk
list with the derived one and recomputes the storage validity flag from
it. -/
theorem handleBasicOnExit_storage_char (env : Env) (s : WizardState)
    (hs : s.steps.storage.updated = 0) :
    (handleBasicOnExit env s).steps.storage.disks
        = deriveDisks (lookupTemplate env.templates s.steps.basic.templateId)
            s.steps.basic.optimizedFor (env.storageDomainList s.steps.basic.dataCenterId) ∧
      (handleBasicOnExit env s).stepNavigation.storage.valid
        = ((handleBasicOnExit env s).steps.storage.disks).all
            (fun d => d.underConstruction.isNone) := by
  by_cases hn : s.steps.network.updated = 0 <;> simp [handleBasicOnExit, hn, hs]

/-- `attachUnderConstruction` keeps the plain fields and attaches the
shadow copy exactly when the user cannot use the storage domain. -/
theorem attachUnderConstruction_spec (f : DiskFields) :
    (attachUnderConstruction f).fields = f ∧
      (attachUnderConstruction f).underConstruction
        = if f.canUserUseStorageDomain then none
          else some { f with storageDomainId := "_" } := by
  unfold attachUnderConstruction
  by_cases hc : f.canUserUseStorageDomain <;> simp [hc]

/-- A remove/update pair whose ids match nothing in the list leaves the
list unchanged. -/
theorem applyListOps_no_match {α π : Type} (getId : α → String) (patchId : π → String)
    (mergePatch : α → π → α) (r : Option String) (u : Option π) (l : List α)
    (hr : ∀ rid, r = some rid → ∀ x ∈ l, getId x ≠ rid)
    (hu : ∀ p, u = some p → ∀ x ∈ l, getId x ≠ patchId p) :
    applyListOps getId patchId mergePatch r u none l = l := by
  cases r with
  | none =>
    cases u with
    | none => rfl
    | some p =>
      show updateFirstById getId (patchId p) (fun x => mergePatch x p) l = l
      exact updateFirstById_eq_self getId (patchId p) _ l (hu p rfl)
  | some rid =>
    have h₁ : (if rid.isEmpty then l else removeById getId rid l) = l := by
      split
      · rfl
      · exact removeById_eq_self getId rid l (hr rid rfl)
    cases u with
    | none =>
      show (if rid.isEmpty then l else removeById getId rid l) = l
      exact h₁
    | some p =>
      show updateFirstById getId (patchId p) (fun x => mergePatch x p)
          (if rid.isEmpty then l else removeById getId rid l) = l
      rw [h₁]
      exact updateFirstById_eq_self getId (patchId p) _ l (hu p rfl)

/-- A `remove`-only list mutation with a truthy (non-empty) id passes the
guard, filters the network list and bumps the counter. -/
theorem handleListOnUpdate_remove_network (s : WizardState) (rid : String)
    (h : rid.isEmpty = false) :
    (handleListOnUpdate (.network (some rid) none none) s).steps.network.nics
        = removeById Nic.id rid s.steps.network.nics ∧
      (handleListOnUpdate (.network (some rid) none none) s).steps.network.updated
        = s.steps.network.updated + 1 := by
  have hg : (ListPayload.network (some rid) none none).isEmpty = false := by
    simp [ListPayload.isEmpty, jsTruthyId, h]
  constructor <;>
    (simp only [handleListOnUpdate, hg, Bool.false_eq_true, if_false]
     try simp [applyListOps, h])

/-- A `remove`-only list mutation with a truthy (non-empty) id passes the
guard, filters the storage list and bumps the counter. -/
theorem handleListOnUpdate_remove_storage (s : WizardState) (rid : String)
    (h : rid.isEmpty = false) :
    (handleListOnUpdate (.storage (some rid) none none) s).steps.storage.disks
        = removeById (fun d => d.fields.id) rid s.steps.storage.disks ∧
      (handleListOnUpdate (.storage (some rid) none none) s).steps.storage.updated
        = s.steps.storage.updated + 1 := by
  have hg : (ListPayload.storage (some rid) none none).isEmpty = false := by
    simp [ListPayload.isEmpty, jsTruthyId, h]
  constructor <;>
    (simp only [handleListOnUpdate, hg, Bool.false_eq_true, if_false]
     try simp [applyListOps, h])

/-- A non-empty string id is non-empty in the `String.isEmpty` sense. -/
theorem isEmpty_false_of_ne (sId : String) (h : sId ≠ "") : sId.isEmpty = false :=
  Bool.eq_false_iff.mpr (fun hb => h ((String.isEmpty_iff sId).mp hb))

/-- Claim C5: `handleBasicOnExit` is idempotent — the first call leaves
both `updated` counters non-zero, so an immediately repeated call performs
no re-derivation and returns the state unchanged. -/
theorem c5_basic_exit_idempotent (env : Env) (s : WizardState) :
    (handleBasicOnExit env s).steps.network.updated ≠ 0 ∧
      (handleBasicOnExit env s).steps.storage.updated ≠ 0 ∧
      handleBasicOnExit env (handleBasicOnExit env s) = handleBasicOnExit env s := by
  obtain ⟨hn, hs⟩ := handleBasicOnExit_updated_ne env s
  exact ⟨hn, hs, handleBasicOnExit_eq_self env _ hn hs⟩

/-- Claim C10: `handleBasicOnExit` modifies only the sub-steps whose
`updated` counter is 0 and the storage validity flag — a sub-step with a
non-zero counter keeps its list and counter, and `steps.basic`, the
correlation id, `wizardUpdated` and the other navigation entries are never
changed. -/
theorem c10_basic_exit_frame (env : Env) (s : WizardState) :
    (s.steps.network.updated ≠ 0 →
        (handleBasicOnExit env s).steps.network = s.steps.network) ∧
      (s.steps.storage.updated ≠ 0 →
        (handleBasicOnExit env s).steps.storage = s.steps.storage ∧
          (handleBasicOnExit env s).stepNavigation.storage = s.stepNavigation.storage) ∧
      (handleBasicOnExit env s).steps.basic = s.steps.basic ∧
      (handleBasicOnExit env s).correlationId = s.correlationId ∧
      (handleBasicOnExit env s).wizardUpdated = s.wizardUpdated ∧
      (handleBasicOnExit env s).stepNavigation.basic = s.stepNavigation.basic ∧
      (handleBasicOnExit env s).stepNavigation.network = s.stepNavigation.network ∧
      (handleBasicOnExit env s).stepNavigation.review = s.stepNavigation.review := by
  by_cases hn : s.steps.network.updated = 0 <;>
    by_cases hs : s.steps.storage.updated = 0 <;>
      simp [handleBasicOnExit, hn, hs]

/-- Witness for C10: on a state with both counters non-zero
(`network.updated = 5`, `storage.updated = 3`) nothing changes. -/
theorem c10_basic_exit_frame_witness :
    (handleBasicOnExit envA stateA).steps.network = stateA.steps.network ∧
      (handleBasicOnExit envA stateA).steps.storage = stateA.steps.storage ∧
      (handleBasicOnExit envA stateA).stepNavigation.storage = stateA.stepNavigation.storage := by
  have h := c10_basic_exit_frame envA stateA
  exact ⟨h.1 (by decide), (h.2.1 (by decide)).1, (h.2.1 (by decide)).2⟩

/-- Claim C1: for every template disk derived on basic-step exit, the
derived `diskType` follows the defaulting rule exactly: `thin` when the
template's class or the wizard's `optimizedFor` is `desktop`, otherwise
`thin` for a sparse source disk and `pre` for a non-sparse one — for all
combinations of template class, `optimizedFor` and sparse flag. -/
theorem c1_disk_type_defaulting_rule (env : Env) (s : WizardState) (t : Template)
    (ht : lookupTemplate env.templates s.steps.basic.templateId = some t)
    (hs : s.steps.storage.updated = 0) :
    (handleBasicOnExit env s).steps.storage.disks.map (fun d => d.fields.diskType)
      = t.disks.map (fun d => specDiskType t.type s.steps.basic.optimizedFor d.sparse) := by
  have hch := (handleBasicOnExit_storage_char env s hs).1
  rw [hch, ht]
  unfold deriveDisks
  rw [List.map_map, List.map_map]
  refine List.map_congr_left ?_
  intro d _
  have hf := (attachUnderConstruction_spec
    (deriveDiskFields t.type s.steps.basic.optimizedFor
      (env.storageDomainList s.steps.basic.dataCenterId) d)).1
  simp only [Function.comp_apply, hf]
  rfl

/-- Witness for C1: on `stateT` (template `tmplA` of class `server`,
`optimizedFor = 'server'`, storage counter 0) the two disks derive to
`thin` (sparse) and `pre` (non-sparse). -/
theorem c1_disk_type_defaulting_rule_witness :
    (handleBasicOnExit envT stateT).steps.storage.disks.map (fun d => d.fields.diskType)
      = tmplA.disks.map (fun d => specDiskType tmplA.type stateT.steps.basic.optimizedFor d.sparse) :=
  c1_disk_type_defaulting_rule envT stateT tmplA (by decide) (by decide)

/-- Claim C9: after a storage derivation on basic-step exit, every derived
disk whose storage domain the user cannot use carries an
`underConstruction` shadow copy with `storageDomainId` reset to the
unresolved sentinel `'_'`, a disk with a usable storage domain carries
none, and `stepNavigation.storage.valid` is recomputed to hold exactly
when no disk carries a shadow. -/
theorem c9_under_construction_invariant (env : Env) (s : WizardState)
    (hs : s.steps.storage.updated = 0) :
    (∀ d ∈ (handleBasicOnExit env s).steps.storage.disks,
        (d.fields.canUserUseStorageDomain = false →
          d.underConstruction = some { d.fields with storageDomainId := "_" }) ∧
        (d.fields.canUserUseStorageDomain = true → d.underConstruction = none)) ∧
      (handleBasicOnExit env s).stepNavigation.storage.valid
        = ((handleBasicOnExit env s).steps.storage.disks).all
            (fun d => d.underConstruction.isNone) := by
  obtain ⟨hdisks, hvalid⟩ := handleBasicOnExit_storage_char env s hs
  refine ⟨?_, hvalid⟩
  intro d hd
  rw [hdisks] at hd
  unfold deriveDisks at hd
  cases hT : lookupTemplate env.templates s.steps.basic.templateId with
  | none => rw [hT] at hd; cases hd
  | some t =>
    rw [hT] at hd
    rw [List.mem_map] at hd
    obtain ⟨f, _, hdf⟩ := hd
    obtain ⟨hfields, huc⟩ := attachUnderConstruction_spec f
    subst hdf
    rw [hfields, huc]
    by_cases hc : f.canUserUseStorageDomain <;> simp [hc]

/-- Witness for C9: `stateT` has storage counter 0, and after the
derivation against `envT` the validity flag equals "no disk carries a
shadow" (here `false`: `disk1` sits on the unavailable `sd1`). -/
theorem c9_under_construction_invariant_witness :
    stateT.steps.storage.updated = 0 ∧
      ((handleBasicOnExit envT stateT).stepNavigation.storage.valid
        = ((handleBasicOnExit envT stateT).steps.storage.disks).all
            (fun d => d.underConstruction.isNone)) :=
  ⟨by decide, (c9_under_construction_invariant envT stateT (by decide)).2⟩

/-- Claim C2 (code bug, evaluated): the claim — echoing the source's own
comment "reset network and storage updates if the provision source or
selected template changes" — says the counters reset exactly when the
merge changes `provisionSource` or `templateId`. The handler instead
compares the *post-merge* values against the `partialUpdate` object, so on
`stateA` (counters 5/3, `provisionSource = 'template'`, no template id):
merging `{name: 'vm1'}` changes neither field yet resets both counters to
0, while merging `{provisionSource: 'iso'}` changes `provisionSource` yet
leaves both counters untouched. -/
theorem c2_reset_counters_bug_eval :
    (mergeBasic stateA.steps.basic updName).provisionSource
        = stateA.steps.basic.provisionSource ∧
      (mergeBasic stateA.steps.basic updName).templateId
        = stateA.steps.basic.templateId ∧
      stateA.steps.network.updated = 5 ∧
      stateA.steps.storage.updated = 3 ∧
      (handleBasicOnUpdate updName stateA).steps.network.updated = 0 ∧
      (handleBasicOnUpdate updName stateA).steps.storage.updated = 0 ∧
      (mergeBasic stateA.steps.basic updProv).provisionSource
        ≠ stateA.steps.basic.provisionSource ∧
      (handleBasicOnUpdate updProv stateA).steps.network.updated = 5 ∧
      (handleBasicOnUpdate updProv stateA).steps.storage.updated = 3 := by
  refine ⟨rfl, rfl, rfl, rfl, rfl, rfl, ?_, rfl, rfl⟩
  decide

/-- Counterexample for C3: the claim says resolving against an empty
result collection yields `inProgress = true` for every token *including
null*, but for the null token the projection computes
`correlationId !== null && …`, i.e. `false`. -/
theorem c3_null_token_counterexample :
    (resolveProgress none [] [] (fun r => r.body)).inProgress ≠ true := by
  decide

/-- Claim C3 as amended: for every *non-null* token, resolving against an
empty result collection yields `inProgress = true`; for the null token it
yields `inProgress = false`. -/
theorem c3_empty_results_in_progress (t : String) (records : List UserMessageRecord)
    (render : UserMessageRecord → String) :
    (resolveProgress (some t) [] records render).inProgress = true ∧
      (resolveProgress none [] records render).inProgress = false := by
  constructor <;> simp [resolveProgress, lookupResult]

/-- Claim C4: for every non-null token present in the result collection,
the projection yields `inProgress = false`, `result = 'success'` exactly
when the stored result is truthy (else `'error'`), and `messages` holding
exactly the rendered records whose failed-action metadata carries that
token — in particular the empty list when no record references it. -/
theorem c4_resolve_completed_projection (t : String) (b : Bool)
    (results : List (String × Bool)) (records : List UserMessageRecord)
    (render : UserMessageRecord → String)
    (h : lookupResult results t = some b) :
    (resolveProgress (some t) results records render).inProgress = false ∧
      (resolveProgress (some t) results records render).result
        = some (if b then "success" else "error") ∧
      (resolveProgress (some t) results records render).messages
        = some ((records.filter (fun r => r.failedActionCorrelationId == some t)).map render) ∧
      ((∀ r ∈ records, r.failedActionCorrelationId ≠ some t) →
        (resolveProgress (some t) results records render).messages = some []) := by
  refine ⟨?_, ?_, ?_, ?_⟩
  · simp [resolveProgress, h]
  · cases b <;> simp [resolveProgress, h]
  · simp [resolveProgress]
  · intro hr
    simp only [resolveProgress]
    have : records.filter (fun r => r.failedActionCorrelationId == some t) = [] := by
      rw [List.filter_eq_nil_iff]
      intro r hmem
      simpa using hr r hmem
    rw [this]
    simp

/-- Witness for C4: token `tok` stored as truthy, one correlated failure
record — the projection is complete with result `'success'` and the one
rendered message. -/
theorem c4_resolve_completed_projection_witness :
    (resolveProgress (some "tok") [("tok", true)] recordsA (fun r => r.body)).inProgress
        = false ∧
      (resolveProgress (some "tok") [("tok", true)] recordsA (fun r => r.body)).result
        = some (if true then "success" else "error") ∧
      (resolveProgress (some "tok") [("tok", true)] recordsA (fun r => r.body)).messages
        = some ((recordsA.filter
            (fun r => r.failedActionCorrelationId == some "tok")).map (fun r => r.body)) := by
  have h := c4_resolve_completed_projection "tok" true [("tok", true)] recordsA
    (fun r => r.body) (by decide)
  exact ⟨h.1, h.2.1, h.2.2.1⟩

/-- Counterexample for C6: the claim quantifies over every item whose id
does not already occur in the list, but for `nicE` (id `''`, absent from
the empty list of the freshly opened state) the follow-up
`{remove: ''}` call is falsy and early-returns, so the create/remove pair
leaves the created NIC in the list with the counter at 1, not restored
with the counter 2 greater. -/
theorem c6_empty_id_counterexample :
    DEFAULT_STATE.steps.network.nics = [] ∧
      (handleListOnUpdate (.network (some "") none none)
          (handleListOnUpdate (.network none none (some nicE)) DEFAULT_STATE)).steps.network.nics
        = [nicE] ∧
      (handleListOnUpdate (.network (some "") none none)
          (handleListOnUpdate (.network none none (some nicE)) DEFAULT_STATE)).steps.network.updated
        = 1 ∧
      (handleListOnUpdate (.network (some "") none none)
          (handleListOnUpdate (.network none none (some nicE)) DEFAULT_STATE)).steps.network.nics
        ≠ DEFAULT_STATE.steps.network.nics ∧
      (handleListOnUpdate (.network (some "") none none)
          (handleListOnUpdate (.network none none (some nicE)) DEFAULT_STATE)).steps.network.updated
        ≠ DEFAULT_STATE.steps.network.updated + 2 := by
  decide

/-- Claim C6 as amended: on either list step, creating an item whose id
is non-empty (so the follow-up remove id is truthy) and does not yet
occur in the list and then removing that id restores the list to exactly
its prior contents and leaves the step's `updated` counter exactly 2
greater. -/
theorem c6_create_remove_round_trip (s : WizardState) (X : Nic) (Y : Disk)
    (hXid : X.id ≠ "") (hYid : Y.fields.id ≠ "")
    (hX : ∀ n ∈ s.steps.network.nics, n.id ≠ X.id)
    (hY : ∀ d ∈ s.steps.storage.disks, d.fields.id ≠ Y.fields.id) :
    ((handleListOnUpdate (.network (some X.id) none none)
          (handleListOnUpdate (.network none none (some X)) s)).steps.network.nics
        = s.steps.network.nics ∧
      (handleListOnUpdate (.network (some X.id) none none)
          (handleListOnUpdate (.network none none (some X)) s)).steps.network.updated
        = s.steps.network.updated + 2) ∧
      ((handleListOnUpdate (.storage (some Y.fields.id) none none)
          (handleListOnUpdate (.storage none none (some Y)) s)).steps.storage.disks
        = s.steps.storage.disks ∧
      (handleListOnUpdate (.storage (some Y.fields.id) none none)
          (handleListOnUpdate (.storage none none (some Y)) s)).steps.storage.updated
        = s.steps.storage.updated + 2) := by
  obtain ⟨hn1, hn2⟩ := handleListOnUpdate_remove_network
    (handleListOnUpdate (.network none none (some X)) s) X.id (isEmpty_false_of_ne X.id hXid)
  obtain ⟨hs1, hs2⟩ := handleListOnUpdate_remove_storage
    (handleListOnUpdate (.storage none none (some Y)) s) Y.fields.id
    (isEmpty_false_of_ne Y.fields.id hYid)
  refine ⟨⟨?_, ?_⟩, ⟨?_, ?_⟩⟩
  · rw [hn1]
    show removeById Nic.id X.id (s.steps.network.nics ++ [X]) = s.steps.network.nics
    exact removeById_append_self Nic.id X s.steps.network.nics hX
  · exact hn2.trans rfl
  · rw [hs1]
    show removeById (fun d => d.fields.id) Y.fields.id (s.steps.storage.disks ++ [Y])
        = s.steps.storage.disks
    exact removeById_append_self (fun d => d.fields.id) Y s.steps.storage.disks hY
  · exact hs2.trans rfl

/-- Witness for C6: create/remove round trip of `nicX` / `diskY` (both
with non-empty ids) on the freshly opened (empty-list) state. -/
theorem c6_create_remove_round_trip_witness :
    ((handleListOnUpdate (.network (some nicX.id) none none)
          (handleListOnUpdate (.network none none (some nicX)) DEFAULT_STATE)).steps.network.nics
        = DEFAULT_STATE.steps.network.nics ∧
      (handleListOnUpdate (.network (some nicX.id) none none)
          (handleListOnUpdate (.network none none (some nicX)) DEFAULT_STATE)).steps.network.updated
        = DEFAULT_STATE.steps.network.updated + 2) ∧
      ((handleListOnUpdate (.storage (some diskY.fields.id) none none)
          (handleListOnUpdate (.storage none none (some diskY)) DEFAULT_STATE)).steps.storage.disks
        = DEFAULT_STATE.steps.storage.disks ∧
      (handleListOnUpdate (.storage (some diskY.fields.id) none none)
          (handleListOnUpdate (.storage none none (some diskY)) DEFAULT_STATE)).steps.storage.updated
        = DEFAULT_STATE.steps.storage.updated + 2) :=
  c6_create_remove_round_trip DEFAULT_STATE nicX diskY
    (by decide) (by decide)
    (fun n hn => absurd hn (List.not_mem_nil n))
    (fun d hd => absurd hd (List.not_mem_nil d))

/-- Counterexample for C7: a `{remove: ''}` call carries a remove whose
id matches no item of the (empty) network list, yet the empty string is
falsy in the source's `!remove && !update && !create` guard, so the call
early-returns: the state is entirely unchanged and neither the counter
increment nor `wizardUpdated = true` claimed for it happens. -/
theorem c7_empty_remove_counterexample :
    DEFAULT_STATE.steps.network.nics = [] ∧
      handleListOnUpdate (.network (some "") none none) DEFAULT_STATE = DEFAULT_STATE ∧
      (handleListOnUpdate (.network (some "") none none) DEFAULT_STATE).steps.network.updated
        ≠ DEFAULT_STATE.steps.network.updated + 1 ∧
      (handleListOnUpdate (.network (some "") none none) DEFAULT_STATE).wizardUpdated ≠ true := by
  decide

/-- Claim C7 as amended: a list mutation carrying a truthy (non-empty)
`remove` id or an `update`, whose ids match no item in the step's list,
is a total, silent no-op on the list contents, yet still increments the
step's `updated` counter and sets `wizardUpdated`; a call whose only
content is a falsy remove id early-returns and changes nothing at all
(stated for both list steps). -/
theorem c7_unknown_id_silent_noop :
    (∀ (s : WizardState) (r : Option String) (u : Option NicPatch),
        (jsTruthyId r = true ∨ u ≠ none) →
        (∀ rid, r = some rid → ∀ n ∈ s.steps.network.nics, n.id ≠ rid) →
        (∀ p, u = some p → ∀ n ∈ s.steps.network.nics, n.id ≠ p.id) →
        (handleListOnUpdate (.network r u none) s).steps.network.nics
            = s.steps.network.nics ∧
          (handleListOnUpdate (.network r u none) s).steps.network.updated
            = s.steps.network.updated + 1 ∧
          (handleListOnUpdate (.network r u none) s).wizardUpdated = true) ∧
      (∀ (s : WizardState) (r : Option String) (u : Option DiskPatch),
        (jsTruthyId r = true ∨ u ≠ none) →
        (∀ rid, r = some rid → ∀ d ∈ s.steps.storage.disks, d.fields.id ≠ rid) →
        (∀ p, u = some p → ∀ d ∈ s.steps.storage.disks, d.fields.id ≠ p.id) →
        (handleListOnUpdate (.storage r u none) s).steps.storage.disks
            = s.steps.storage.disks ∧
          (handleListOnUpdate (.storage r u none) s).steps.storage.updated
            = s.steps.storage.updated + 1 ∧
          (handleListOnUpdate (.storage r u none) s).wizardUpdated = true) := by
  constructor
  · intro s r u hne hr hu
    have hg : (ListPayload.network r u none).isEmpty = false := by
      rcases hne with h | h
      · simp [ListPayload.isEmpty, h]
      · cases u with
        | none => exact absurd rfl h
        | some p => simp [ListPayload.isEmpty]
    have hl := applyListOps_no_match Nic.id NicPatch.id mergeNicPatch r u
      s.steps.network.nics hr hu
    simp only [handleListOnUpdate, hg, Bool.false_eq_true, if_false]
    refine ⟨hl, ?_, ?_⟩ <;> trivial
  · intro s r u hne hr hu
    have hg : (ListPayload.storage r u none).isEmpty = false := by
      rcases hne with h | h
      · simp [ListPayload.isEmpty, h]
      · cases u with
        | none => exact absurd rfl h
        | some p => simp [ListPayload.isEmpty]
    have hl := applyListOps_no_match (fun d => d.fields.id) DiskPatch.id mergeDiskPatch r u
      s.steps.storage.disks hr hu
    simp only [handleListOnUpdate, hg, Bool.false_eq_true, if_false]
    refine ⟨hl, ?_, ?_⟩ <;> trivial

/-- Witness for C7: removing the unknown truthy id `zz` from either empty
list of the freshly opened state changes nothing but still bumps the
counters and `wizardUpdated`. -/
theorem c7_unknown_id_silent_noop_witness :
    ((handleListOnUpdate (.network (some "zz") none none) DEFAULT_STATE).steps.network.nics
        = DEFAULT_STATE.steps.network.nics ∧
      (handleListOnUpdate (.network (some "zz") none none) DEFAULT_STATE).steps.network.updated
        = DEFAULT_STATE.steps.network.updated + 1 ∧
      (handleListOnUpdate (.network (some "zz") none none) DEFAULT_STATE).wizardUpdated = true) ∧
      ((handleListOnUpdate (.storage (some "zz") none none) DEFAULT_STATE).steps.storage.disks
        = DEFAULT_STATE.steps.storage.disks ∧
      (handleListOnUpdate (.storage (some "zz") none none) DEFAULT_STATE).steps.storage.updated
        = DEFAULT_STATE.steps.storage.updated + 1 ∧
      (handleListOnUpdate (.storage (some "zz") none none) DEFAULT_STATE).wizardUpdated = true) :=
  ⟨c7_unknown_id_silent_noop.1 DEFAULT_STATE (some "zz") none
      (Or.inl (by decide))
      (fun _ _ n hn => absurd hn (List.not_mem_nil n))
      (fun p hp => nomatch hp),
    c7_unknown_id_silent_noop.2 DEFAULT_STATE (some "zz") none
      (Or.inl (by decide))
      (fun _ _ d hd => absurd hd (List.not_mem_nil d))
      (fun p hp => nomatch hp)⟩

/-- Counterexample for C8: from the freshly opened wizard, one submit
stamps `t1`; the state is reachable and its correlation id is non-null,
yet a further `handleCreateVm` — an operation other than the full reset —
overwrites the token. -/
theorem c8_resubmit_counterexample :
    Reachable envA (applyOp envA (Op.createVm "t1")
        (getInitialState envA.basicInit envA.basicDefaults)) ∧
      (applyOp envA (Op.createVm "t1")
          (getInitialState envA.basicInit envA.basicDefaults)).correlationId = some "t1" ∧
      (applyOp envA (Op.createVm "t2") (applyOp envA (Op.createVm "t1")
          (getInitialState envA.basicInit envA.basicDefaults))).correlationId ≠ some "t1" :=
  ⟨Reachable.step (Op.createVm "t1") _ Reachable.init, rfl, by decide⟩

/-- Claim C8 as amended: once `correlationId` is stamped, every session
operation other than `handleCreateVm` itself and the full resets preserves
it; the reset operations (`hideAndResetState`, including
`showCloseWizardDialog` on a submitted wizard) return it to null, and a
repeated `handleCreateVm` overwrites it with the freshly generated
token rather than being rejected. -/
theorem c8_correlation_id_preservation (env : Env) (s : WizardState) (t : String)
    (h : s.correlationId = some t) :
    (∀ u, (applyOp env (Op.updateBasic u) s).correlationId = some t) ∧
      (∀ p, (applyOp env (Op.listUpdate p) s).correlationId = some t) ∧
      (applyOp env Op.basicExit s).correlationId = some t ∧
      (∀ st v, (applyOp env (Op.setValid st v) s).correlationId = some t) ∧
      (applyOp env Op.hideCloseDialog s).correlationId = some t ∧
      (applyOp env Op.showCloseDialog s).correlationId = none ∧
      (applyOp env Op.resetState s).correlationId = none ∧
      (∀ tok, (applyOp env (Op.createVm tok) s).correlationId = some tok) := by
  refine ⟨?_, ?_, ?_, ?_, ?_, ?_, ?_, ?_⟩
  · intro u
    simp only [applyOp, handleBasicOnUpdate]
    split <;> exact h
  · intro p
    cases p <;> (simp only [applyOp, handleListOnUpdate]; split) <;> exact h
  · rw [show (applyOp env Op.basicExit s) = handleBasicOnExit env s from rfl,
      handleBasicOnExit_correlationId]
    exact h
  · intro st v
    cases st <;> exact h
  · exact h
  · simp only [applyOp, showCloseWizardDialogOp]
    rw [if_neg]
    · rfl
    · rintro ⟨_, hc⟩
      rw [h] at hc
      exact Option.noConfusion hc
  · rfl
  · intro tok
    rfl

/-- Witness for C8 (amended): on the submitted state `stateS` (token
`t1`), a basic update and a basic exit preserve the token, the full reset
clears it, and a repeated submit overwrites it with `t2`. -/
theorem c8_correlation_id_preservation_witness :
    (applyOp envA (Op.updateBasic updName) stateS).correlationId = some "t1" ∧
      (applyOp envA Op.basicExit stateS).correlationId = some "t1" ∧
      (applyOp envA Op.resetState stateS).correlationId = none ∧
      (applyOp envA (Op.createVm "t2") stateS).correlationId = some "t2" := by
  have h := c8_correlation_id_preservation envA stateS "t1" rfl
  exact ⟨h.1 updName, h.2.2.1, h.2.2.2.2.2.2.1, h.2.2.2.2.2.2.2 "t2"⟩
